import Mathlib

/-!
Verification of the tachograph-card-client core (src-tauri/src):
a shallow embedding of the ATR protocol parser, the registration decision,
the session registry operations, the card-session recovery logic, the ICCID
once-cell caching, and the per-card MQTT bridge task step function,
together with theorems settling the specification claims.
-/

namespace TachoClient

/-! ## Hex encoding and decoding (model of the `hex` crate as used by the code) -/

/-- Value of a single hex digit, case-insensitive; `none` for a non-hex character. -/
def hexDigitVal (c : Char) : Option Nat :=
  if 48 ≤ c.toNat ∧ c.toNat ≤ 57 then some (c.toNat - 48)
  else if 97 ≤ c.toNat ∧ c.toNat ≤ 102 then some (c.toNat - 87)
  else if 65 ≤ c.toNat ∧ c.toNat ≤ 70 then some (c.toNat - 55)
  else none

/-- Model of `hex::decode` on a character list: pairs of hex digits become bytes;
an odd length or a non-hex character is an error (`none`). -/
def hexDecodeList : List Char → Option (List Nat)
  | [] => some []
  | [_] => none
  | a :: b :: rest =>
    match hexDigitVal a, hexDigitVal b, hexDecodeList rest with
    | some hi, some lo, some tail => some ((hi * 16 + lo) :: tail)
    | _, _, _ => none

/-- Model of `hex::decode` on a string. -/
def hexDecode (s : String) : Option (List Nat) :=
  hexDecodeList s.data

/-- Uppercase hex digit for a value below 16 (Rust `{:02X}` formatting, per digit). -/
def hexDigitUpper (n : Nat) : Char :=
  if n < 10 then Char.ofNat (48 + n) else Char.ofNat (65 + n - 10)

/-- Model of `bytes.iter().map(|b| format!("{:02X}", b)).collect::<String>()`:
each byte becomes two uppercase hex digits. -/
def upperHexEncode (bs : List Nat) : String :=
  ⟨(bs.map (fun b => [hexDigitUpper (b / 16), hexDigitUpper (b % 16)])).flatten⟩

/-- Model of `read_response.strip_suffix("9000").unwrap_or(&read_response)`:
drop a trailing `9000` status word when present, otherwise keep the string. -/
def stripStatus (s : String) : String :=
  let n := s.data.length
  if 4 ≤ n ∧ s.data.drop (n - 4) = ['9', '0', '0', '0'] then ⟨s.data.take (n - 4)⟩ else s

/-! ## ATR protocol parser (src/src-tauri/src/smart_card.rs, `parse_atr_and_get_protocol`) -/

/-- The two transport protocols the parser can return (`pcsc::Protocols::T0` / `T1`). -/
inductive Protocols where
  | T0
  | T1
deriving DecidableEq

/-- The protocol encoded in the low nibble of a TD interface byte
(`match proto { 0x00 => T0, 0x01 => T1, _ => T0 }`). -/
def protoOf (t : Nat) : Protocols :=
  if t &&& 15 = 0 then Protocols.T0
  else if t &&& 15 = 1 then Protocols.T1
  else Protocols.T0

/-- Total byte lookup (`atr_bytes[index]`; every use in the source is guarded by an
explicit bounds check, modelled separately). -/
def byteAt (b : List Nat) (i : Nat) : Nat := b.getD i 0

/-- `Y1`: the high nibble of the format byte `T0` (byte index 1 of the ATR). -/
def atrY1 (b : List Nat) : Nat := byteAt b 1 / 16

/-- Index of TD1 after skipping TA1/TB1/TC1 as indicated by the bits of `Y1`. -/
def atrTd1Idx (b : List Nat) : Nat :=
  2 + (if atrY1 b &&& 1 ≠ 0 then 1 else 0) + (if atrY1 b &&& 2 ≠ 0 then 1 else 0) +
    (if atrY1 b &&& 4 ≠ 0 then 1 else 0)

/-- TD1, when `Y1` announces it and the byte is actually present in the input. -/
def td1Of (b : List Nat) : Option Nat :=
  if b.length < 2 then none
  else if atrY1 b &&& 8 ≠ 0 ∧ atrTd1Idx b < b.length then some (byteAt b (atrTd1Idx b))
  else none

/-- Index of TD2 after skipping TA2/TB2/TC2 as indicated by the high nibble of TD1. -/
def atrTd2Idx (b : List Nat) (td1 : Nat) : Nat :=
  atrTd1Idx b + 1 + (if td1 / 16 &&& 1 ≠ 0 then 1 else 0) +
    (if td1 / 16 &&& 2 ≠ 0 then 1 else 0) + (if td1 / 16 &&& 4 ≠ 0 then 1 else 0)

/-- TD2, when TD1 exists, announces it, and the byte is actually present. -/
def td2Of (b : List Nat) : Option Nat :=
  match td1Of b with
  | none => none
  | some td1 =>
    if td1 / 16 &&& 8 ≠ 0 ∧ atrTd2Idx b td1 < b.length then some (byteAt b (atrTd2Idx b td1))
    else none

/-- Body of `parse_atr_and_get_protocol`, translated from the source control flow:
walk the interface bytes with a moving index, read TD1 and TD2 when announced and
present, and decide the protocol from TD2, else TD1, else default to T=0. -/
def parse_atr_bytes (b : List Nat) : Protocols :=
  if b.length < 2 then Protocols.T0
  else
    if atrY1 b &&& 8 ≠ 0 ∧ atrTd1Idx b < b.length then
      if byteAt b (atrTd1Idx b) / 16 &&& 8 ≠ 0 ∧
          atrTd2Idx b (byteAt b (atrTd1Idx b)) < b.length then
        protoOf (byteAt b (atrTd2Idx b (byteAt b (atrTd1Idx b))))
      else
        protoOf (byteAt b (atrTd1Idx b))
    else Protocols.T0

/-- `parse_atr_and_get_protocol`: hex-decode the ATR string (any decode error
falls back to T=0) and parse the bytes. -/
def parse_atr_and_get_protocol (atr : String) : Protocols :=
  match hexDecode atr with
  | none => Protocols.T0
  | some bytes => parse_atr_bytes bytes

/-- Claim C4: for every hex-encoded ATR string, when a TD2 byte is present the
parser returns the protocol of TD2's low nibble (T=1 exactly when it is 1),
regardless of TD1's low nibble; when TD1 is present but TD2 is not, TD1's low
nibble decides; absent both (including every truncation that leaves no TD byte
readable), the result is T=0; and a non-hex or odd-length input yields T=0. -/
theorem atr_parser_td_priority (s : String) :
    (hexDecode s = none → parse_atr_and_get_protocol s = Protocols.T0) ∧
    (∀ b, hexDecode s = some b →
      parse_atr_and_get_protocol s =
        match td2Of b, td1Of b with
        | some t2, _ => if t2 &&& 15 = 1 then Protocols.T1 else Protocols.T0
        | none, some t1 => if t1 &&& 15 = 1 then Protocols.T1 else Protocols.T0
        | none, none => Protocols.T0) := by
  constructor
  · intro h
    unfold parse_atr_and_get_protocol
    rw [h]
  · intro b hb
    unfold parse_atr_and_get_protocol
    rw [hb]
    show parse_atr_bytes b = _
    by_cases hlen : b.length < 2
    · have ht1 : td1Of b = none := by simp [td1Of, hlen]
      have ht2 : td2Of b = none := by simp [td2Of, ht1]
      simp [parse_atr_bytes, hlen, ht1, ht2]
    · by_cases h1 : atrY1 b &&& 8 ≠ 0 ∧ atrTd1Idx b < b.length
      · have ht1 : td1Of b = some (byteAt b (atrTd1Idx b)) := by
          simp [td1Of, hlen, h1]
        by_cases h2 : byteAt b (atrTd1Idx b) / 16 &&& 8 ≠ 0 ∧
            atrTd2Idx b (byteAt b (atrTd1Idx b)) < b.length
        · have ht2 : td2Of b = some (byteAt b (atrTd2Idx b (byteAt b (atrTd1Idx b)))) := by
            simp [td2Of, ht1, h2]
          rw [ht2]
          by_cases hz1 : byteAt b (atrTd2Idx b (byteAt b (atrTd1Idx b))) &&& 15 = 1
          · simp [parse_atr_bytes, hlen, h1, h2, protoOf, hz1]
          · simp [parse_atr_bytes, hlen, h1, h2, protoOf, hz1]
        · have ht2 : td2Of b = none := by
            simp [td2Of, ht1, h2]
          rw [ht2, ht1]
          by_cases hz1 : byteAt b (atrTd1Idx b) &&& 15 = 1
          · simp [parse_atr_bytes, hlen, h1, h2, protoOf, hz1]
          · simp [parse_atr_bytes, hlen, h1, h2, protoOf, hz1]
      · have ht1 : td1Of b = none := by simp [td1Of, hlen, h1]
        have ht2 : td2Of b = none := by simp [td2Of, ht1]
        simp [parse_atr_bytes, hlen, h1, ht1, ht2]

/-- Witness for C4 at the concrete ATR `3b808001`: TD1 is `80` (low nibble 0,
announcing TD2), TD2 is `01`, so the parser returns T=1. -/
theorem atr_parser_td_priority_witness :
    parse_atr_and_get_protocol "3b808001" = Protocols.T1 :=
  ((atr_parser_td_priority "3b808001").2 [59, 128, 128, 1] (by decide)).trans (by decide)

/-! ## Session registry (TASK_POOL) and the registration decision
(src/src-tauri/src/smart_card.rs `should_register_new_card`,
src/src-tauri/src/mqtt.rs `ensure_connection`, `remove_connections`,
`remove_connections_all`).

A `ProcessingCard` keeps the data fields of the source struct; the MQTT client
handle and the task join handle carry no registry-relevant state, and aborting
the task on removal is the direct effect of dropping the entry. -/

/-- Registry entry (source struct `ProcessingCard`, data fields). -/
structure ProcessingCard where
  client_id : String
  reader_name : Option String
  atr : Option String
deriving DecidableEq

/-- Outcome of the registration decision (source enum `CardProcessingResult`). -/
inductive CardProcessingResult where
  | Create
  | Delete
  | Ignore
deriving DecidableEq

/-- Index of the first stale entry: same reader name and a non-empty stored ATR
(`pool.iter().position(...)` in case 2 of `should_register_new_card`). -/
def staleIdx (reader_name : String) (pool : List ProcessingCard) : Option Nat :=
  pool.findIdx?
    (fun c => c.reader_name == some reader_name &&
      (c.atr.map (fun s => !s.isEmpty)).getD false)

/-- `should_register_new_card`, as a pure function of the locked pool: case 1
returns `Create` when reader name and ATR are non-empty and no entry carries
this exact pair; case 2 removes the first stale entry (if any) and returns
`Delete` whenever the ATR is empty; otherwise `Ignore`. Returns the decision
together with the pool after the case-2 pruning. -/
def should_register_new_card (reader_name atr : String) (pool : List ProcessingCard) :
    CardProcessingResult × List ProcessingCard :=
  if !reader_name.isEmpty && !atr.isEmpty &&
      !(pool.any fun c => c.reader_name == some reader_name && c.atr == some atr) then
    (CardProcessingResult.Create, pool)
  else if atr.isEmpty then
    match staleIdx reader_name pool with
    | some i => (CardProcessingResult.Delete, pool.eraseIdx i)
    | none => (CardProcessingResult.Delete, pool)
  else
    (CardProcessingResult.Ignore, pool)

/-- `ensure_connection`, restricted to its registry effect: an empty client id
returns early; an existing entry with the same client id returns early; a host
string that does not split into host and port returns early; otherwise the new
entry is pushed and a bridge task is spawned. The boolean reports whether an
MQTT client was created and a task spawned. -/
def ensure_connection (reader_name client_id atr : String) (hostOk : Bool)
    (pool : List ProcessingCard) : List ProcessingCard × Bool :=
  if client_id.isEmpty then (pool, false)
  else if pool.any fun c => c.client_id == client_id then (pool, false)
  else if !hostOk then (pool, false)
  else (pool ++ [{ client_id := client_id, reader_name := some reader_name,
                   atr := some atr }], true)

/-- Remove the first entry with the given client id, aborting its task
(body of the per-id loop in `remove_connections`). -/
def removeOne (client_id : String) (pool : List ProcessingCard) : List ProcessingCard :=
  match pool.findIdx? (fun c => c.client_id == client_id) with
  | some i => pool.eraseIdx i
  | none => pool

/-- `remove_connections`: remove the first matching entry for every listed id. -/
def remove_connections (client_ids : List String) (pool : List ProcessingCard) :
    List ProcessingCard :=
  client_ids.foldl (fun p cid => removeOne cid p) pool

/-- `remove_connections_all`: abort every task and clear the pool. -/
def remove_connections_all (_pool : List ProcessingCard) : List ProcessingCard := []

/-- One registry operation: each constructor is one critical section that holds
the `TASK_POOL` lock in the source. -/
inductive RegOp where
  | decision (reader_name atr : String)
  | ensure (reader_name client_id atr : String) (hostOk : Bool)
  | removeIds (client_ids : List String)
  | removeAll

/-- Effect of one registry operation on the pool. -/
def applyOp (op : RegOp) (pool : List ProcessingCard) : List ProcessingCard :=
  match op with
  | RegOp.decision r a => (should_register_new_card r a pool).2
  | RegOp.ensure r c a h => (ensure_connection r c a h pool).1
  | RegOp.removeIds ids => remove_connections ids pool
  | RegOp.removeAll => remove_connections_all pool

/-- Effect of a sequence of registry operations. -/
def applyOps (ops : List RegOp) (pool : List ProcessingCard) : List ProcessingCard :=
  ops.foldl (fun p op => applyOp op p) pool

/-- No two entries share a client identifier. -/
def uniqueClients (pool : List ProcessingCard) : Prop :=
  pool.Pairwise (fun a b => a.client_id ≠ b.client_id)

/-- No two entries share the (reader name, ATR) pair. -/
def uniquePairs (pool : List ProcessingCard) : Prop :=
  pool.Pairwise (fun a b => ¬(a.reader_name = b.reader_name ∧ a.atr = b.atr))

theorem uniqueClients_eraseIdx {pool : List ProcessingCard} (i : Nat)
    (h : uniqueClients pool) : uniqueClients (pool.eraseIdx i) :=
  List.Pairwise.sublist (List.eraseIdx_sublist pool i) h

theorem uniqueClients_removeOne {pool : List ProcessingCard} (cid : String)
    (h : uniqueClients pool) : uniqueClients (removeOne cid pool) := by
  unfold removeOne
  cases pool.findIdx? (fun c => c.client_id == cid) with
  | none => exact h
  | some i => exact uniqueClients_eraseIdx i h

theorem uniqueClients_applyOp (op : RegOp) {pool : List ProcessingCard}
    (h : uniqueClients pool) : uniqueClients (applyOp op pool) := by
  cases op with
  | decision r a =>
    show uniqueClients (should_register_new_card r a pool).2
    unfold should_register_new_card
    split
    · exact h
    · split
      · cases staleIdx r pool with
        | none => exact h
        | some i => exact uniqueClients_eraseIdx i h
      · exact h
  | ensure r c a hostOk =>
    show uniqueClients (ensure_connection r c a hostOk pool).1
    unfold ensure_connection
    split
    · exact h
    · split
      · exact h
      · split
        · exact h
        · rename_i hempty hnone hhost
          refine List.pairwise_append.2 ⟨h, List.pairwise_singleton _ _, ?_⟩
          intro x hx y hy
          simp only [List.mem_singleton] at hy
          subst hy
          intro hcontra
          apply hnone
          rw [List.any_eq_true]
          exact ⟨x, hx, by simp [hcontra]⟩
  | removeIds ids =>
    show uniqueClients (remove_connections ids pool)
    unfold remove_connections
    induction ids generalizing pool with
    | nil => exact h
    | cons i rest ih => exact ih (uniqueClients_removeOne i h)
  | removeAll => exact List.Pairwise.nil

/-- Claim C7 (amended): every sequence of registration decisions, insertions and
removals preserves uniqueness of client identifiers in the registry.
(Uniqueness of (reader, ATR) pairs is not preserved; see the counterexample.) -/
theorem registry_client_id_unique (ops : List RegOp) (pool : List ProcessingCard)
    (h : uniqueClients pool) : uniqueClients (applyOps ops pool) := by
  unfold applyOps
  induction ops generalizing pool with
  | nil => exact h
  | cons op rest ih => exact ih _ (uniqueClients_applyOp op h)

/-- Witness for C7: from the empty registry, inserting two entries preserves
client-id uniqueness. -/
theorem registry_client_id_unique_witness :
    uniqueClients (applyOps
      [RegOp.ensure "ACS ACR122" "card1" "3b6b" true,
       RegOp.ensure "Alcor" "card2" "3c" true] []) :=
  registry_client_id_unique _ [] (by constructor)

/-- Counterexample for C7 as stated: two `ensure_connection` insertions with the
same (reader, ATR) pair but different client ids leave the registry with a
duplicated (reader name, ATR) pair. -/
theorem registry_pair_not_unique :
    ¬ uniquePairs (applyOps
      [RegOp.ensure "ACS ACR122" "card1" "3b6b" true,
       RegOp.ensure "ACS ACR122" "card2" "3b6b" true] []) := by
  intro h
  have hpool : applyOps
      [RegOp.ensure "ACS ACR122" "card1" "3b6b" true,
       RegOp.ensure "ACS ACR122" "card2" "3b6b" true] [] =
      [{ client_id := "card1", reader_name := some "ACS ACR122", atr := some "3b6b" },
       { client_id := "card2", reader_name := some "ACS ACR122", atr := some "3b6b" }] := by
    rfl
  rw [hpool] at h
  have := List.rel_of_pairwise_cons h (List.mem_singleton.2 rfl)
  exact this ⟨rfl, rfl⟩

/-- Claim C1 (amended): the registration decision returns `Create` exactly when
reader name and ATR are both non-empty and no entry carries this (reader, ATR)
pair; it returns `Delete` exactly when the ATR is empty — removing the first
entry with this reader name and a non-empty ATR when one exists, and still
returning `Delete` when there is nothing to remove; it returns `Ignore` in the
remaining cases (non-empty ATR with an already-registered pair or an empty
reader name). -/
theorem registration_decision_cases (r a : String) (pool : List ProcessingCard) :
    ((should_register_new_card r a pool).1 = CardProcessingResult.Create ↔
      r ≠ "" ∧ a ≠ "" ∧
        (pool.any fun c => c.reader_name == some r && c.atr == some a) = false) ∧
    ((should_register_new_card r a pool).1 = CardProcessingResult.Delete ↔ a = "") ∧
    ((should_register_new_card r a pool).2 =
      if a = "" then
        match staleIdx r pool with
        | some i => pool.eraseIdx i
        | none => pool
      else pool) := by
  cases hre : r.isEmpty <;> cases hae : a.isEmpty
  · have hrP : r ≠ "" := fun h => by subst h; exact absurd hre (by decide)
    have haP : a ≠ "" := fun h => by subst h; exact absurd hae (by decide)
    cases hex : (pool.any fun c => c.reader_name == some r && c.atr == some a) <;>
      simp [should_register_new_card, hre, hae, hex, hrP, haP]
  · have haP : a = "" := (String.isEmpty_iff a).1 hae
    have h0 : ("" : String).isEmpty = true := by decide
    subst haP
    cases hst : staleIdx r pool <;>
      simp [should_register_new_card, hre, hst, h0]
  · have hrP : r = "" := (String.isEmpty_iff r).1 hre
    have haP : a ≠ "" := fun h => by subst h; exact absurd hae (by decide)
    have h0 : ("" : String).isEmpty = true := by decide
    subst hrP
    simp [should_register_new_card, hae, haP, h0]
  · have hrP : r = "" := (String.isEmpty_iff r).1 hre
    have haP : a = "" := (String.isEmpty_iff a).1 hae
    have h0 : ("" : String).isEmpty = true := by decide
    subst hrP
    subst haP
    cases hst : staleIdx "" pool <;>
      simp [should_register_new_card, hst, h0]

/-- Witness for C1: on the empty registry, a non-empty reader and ATR yield
`Create`. -/
theorem registration_decision_cases_witness :
    (should_register_new_card "ACS ACR122" "3b6b" []).1 = CardProcessingResult.Create :=
  (registration_decision_cases "ACS ACR122" "3b6b" []).1.2
    ⟨by decide, by decide, by decide⟩

/-- Counterexample for C1 as stated: a removal notification with nothing left to
remove (reader "ACS ACR122", empty ATR, empty registry) returns `Delete`, not
`Ignore` — the `Delete` return in case 2 of `should_register_new_card` does not
depend on an entry having been found. -/
theorem registration_decision_delete_on_empty :
    (should_register_new_card "ACS ACR122" "" []).1 = CardProcessingResult.Delete ∧
    (should_register_new_card "ACS ACR122" "" []).1 ≠ CardProcessingResult.Ignore := by
  constructor
  · rfl
  · intro h
    cases h

/-! ## Card session: transmit with recovery and ICCID caching
(src/src-tauri/src/smart_card.rs, `ManagedCard::send_apdu`,
`ManagedCard::get_iccid`).

The outcomes of the hardware calls (`apdu_transmit`, `recreate`) are inputs of
the model: the logic under verification is how `send_apdu` and `get_iccid`
combine them. -/

/-- `ManagedCard::send_apdu`: first transmit attempt, then on failure one
`recreate` followed by one retry; every failure path degrades to the fixed
sentinel response `6F00` instead of propagating an error. -/
def send_apdu (first : Except String String) (recreateRes : Except String Unit)
    (retry : Except String String) : String :=
  match first with
  | Except.ok response => response
  | Except.error _ =>
    match recreateRes with
    | Except.error _ => "6F00"
    | Except.ok _ =>
      match retry with
      | Except.ok response => response
      | Except.error _ => "6F00"

/-- Claim C5: `send_apdu` always returns a response string (it is total and
never propagates an error); a successful first transmit returns its response;
a failed first transmit followed by successful recreate and retry returns the
retry's response; and if the recreate or the retry fails it returns the fixed
sentinel `6F00`. -/
theorem send_apdu_recovery (first : Except String String)
    (recreateRes : Except String Unit) (retry : Except String String) :
    (∀ v, first = Except.ok v → send_apdu first recreateRes retry = v) ∧
    (∀ e v, first = Except.error e → recreateRes = Except.ok () →
      retry = Except.ok v → send_apdu first recreateRes retry = v) ∧
    (∀ e e2, first = Except.error e → recreateRes = Except.error e2 →
      send_apdu first recreateRes retry = "6F00") ∧
    (∀ e e2, first = Except.error e → retry = Except.error e2 →
      send_apdu first recreateRes retry = "6F00") := by
  refine ⟨?_, ?_, ?_, ?_⟩
  · intro v h
    subst h
    rfl
  · intro e v h1 h2 h3
    subst h1
    subst h2
    subst h3
    rfl
  · intro e e2 h1 h2
    subst h1
    subst h2
    rfl
  · intro e e2 h1 h2
    subst h1
    subst h2
    cases recreateRes <;> rfl

/-- Witness for C5: a failed first transmit with successful recreate and retry
returns the retry's response, and with a failed retry returns `6F00`. -/
theorem send_apdu_recovery_witness :
    send_apdu (Except.error "Transmit error") (Except.ok ()) (Except.ok "9000") = "9000" ∧
    send_apdu (Except.error "Transmit error") (Except.ok ())
      (Except.error "Transmit error") = "6F00" :=
  ⟨(send_apdu_recovery _ _ _).2.1 "Transmit error" "9000" rfl rfl rfl,
   (send_apdu_recovery _ _ _).2.2.2 "Transmit error" "Transmit error" rfl rfl⟩

/-- Responses of the card to the two fixed ICCID commands, as seen by
`get_iccid` through `apdu_transmit`. -/
structure ApduOracle where
  selectResp : Except String String
  readResp : Except String String

/-- Result of one `get_iccid` call: the returned value, the state of the
`iccid` once-cell after the call, and the APDU commands issued during it. -/
structure IccidCallResult where
  result : Except String String
  cell : Option String
  cmds : List String

/-- `ManagedCard::get_iccid`: return the cached value if the once-cell is set;
otherwise send SELECT EF ICC (`00A4020C020002`, status only warned about),
then READ BINARY (`00B0000108`), strip a trailing `9000`, hex-decode, re-encode
uppercase, store the value in the cell and return it. Errors of either
transmit or of the hex decode propagate and leave the cell unset. -/
def get_iccid (cell : Option String) (card : ApduOracle) : IccidCallResult :=
  match cell with
  | some cached => ⟨Except.ok cached, some cached, []⟩
  | none =>
    match card.selectResp with
    | Except.error e => ⟨Except.error e, none, ["00A4020C020002"]⟩
    | Except.ok _ =>
      match card.readResp with
      | Except.error e => ⟨Except.error e, none, ["00A4020C020002", "00B0000108"]⟩
      | Except.ok readResponse =>
        match hexDecode (stripStatus readResponse) with
        | none =>
          ⟨Except.error "Failed to decode ICCID hex", none,
            ["00A4020C020002", "00B0000108"]⟩
        | some bytes =>
          ⟨Except.ok (upperHexEncode bytes), some (upperHexEncode bytes),
            ["00A4020C020002", "00B0000108"]⟩

/-- Claim C9: the once-cell behind `get_iccid` is written at most once — a call
leaves a set cell unchanged, and a cell becomes set only by a successful first
read; a call with the cell already set returns the cached value and issues no
card commands; a successful first call issues exactly the SELECT and READ
BINARY commands, returns the stripped, re-encoded data and caches it; and any
call right after a successful one returns exactly the same string while
issuing no commands. -/
theorem get_iccid_cached (cell : Option String) (card card2 : ApduOracle) :
    (∀ v, cell = some v → get_iccid cell card = ⟨Except.ok v, some v, []⟩) ∧
    (∀ v, (get_iccid cell card).result = Except.ok v →
      (get_iccid cell card).cell = some v) ∧
    ((get_iccid cell card).cell = cell ∨ cell = none) ∧
    (∀ sel readResponse bytes, cell = none → card.selectResp = Except.ok sel →
      card.readResp = Except.ok readResponse →
      hexDecode (stripStatus readResponse) = some bytes →
      get_iccid cell card =
        ⟨Except.ok (upperHexEncode bytes), some (upperHexEncode bytes),
          ["00A4020C020002", "00B0000108"]⟩) ∧
    (∀ v, (get_iccid cell card).result = Except.ok v →
      get_iccid (get_iccid cell card).cell card2 = ⟨Except.ok v, some v, []⟩) := by
  refine ⟨?_, ?_, ?_, ?_, ?_⟩
  · intro v h
    subst h
    rfl
  · intro v h
    cases cell with
    | some cached =>
      simp [get_iccid] at h ⊢
      exact h
    | none =>
      cases hsel : card.selectResp with
      | error e =>
        simp [get_iccid, hsel] at h
      | ok sel =>
        cases hread : card.readResp with
        | error e =>
          simp [get_iccid, hsel, hread] at h
        | ok readResponse =>
          cases hdec : hexDecode (stripStatus readResponse) with
          | none =>
            simp [get_iccid, hsel, hread, hdec] at h
          | some bytes =>
            simp [get_iccid, hsel, hread, hdec] at h ⊢
            exact h
  · cases cell with
    | some cached => exact Or.inl rfl
    | none => exact Or.inr rfl
  · intro sel readResponse bytes hc hsel hread hdec
    subst hc
    simp [get_iccid, hsel, hread, hdec]
  · intro v h
    cases cell with
    | some cached =>
      simp [get_iccid] at h ⊢
      exact h
    | none =>
      cases hsel : card.selectResp with
      | error e =>
        simp [get_iccid, hsel] at h
      | ok sel =>
        cases hread : card.readResp with
        | error e =>
          simp [get_iccid, hsel, hread] at h
        | ok readResponse =>
          cases hdec : hexDecode (stripStatus readResponse) with
          | none =>
            simp [get_iccid, hsel, hread, hdec] at h
          | some bytes =>
            simp [get_iccid, hsel, hread, hdec] at h ⊢
            exact h

/-- Witness for C9: a first call on an oracle answering `AABB9000` to READ
BINARY caches `AABB`, and the following call returns the cached `AABB` with no
commands issued. -/
theorem get_iccid_cached_witness :
    get_iccid none ⟨Except.ok "9000", Except.ok "AABB9000"⟩ =
      ⟨Except.ok "AABB", some "AABB", ["00A4020C020002", "00B0000108"]⟩ ∧
    get_iccid (some "AABB") ⟨Except.error "gone", Except.error "gone"⟩ =
      ⟨Except.ok "AABB", some "AABB", []⟩ := by
  constructor
  · exact (get_iccid_cached none ⟨Except.ok "9000", Except.ok "AABB9000"⟩
      ⟨Except.error "gone", Except.error "gone"⟩).2.2.2.1 "9000" "AABB9000" [170, 187]
      rfl rfl rfl (by decide)
  · exact (get_iccid_cached (some "AABB")
      ⟨Except.error "gone", Except.error "gone"⟩
      ⟨Except.error "gone", Except.error "gone"⟩).1 "AABB" rfl

/-- Claim C10: with an empty client id (an unmapped card), `ensure_connection`
has no effect — the pool is unchanged and no MQTT client or bridge task is
created — and, provided the (reader, ATR) pair is absent from the pool (which
the no-op insert preserves), the registration decision returns `Create` on
this scan and again on the next one. -/
theorem ensure_connection_empty_client (r a : String) (hostOk : Bool)
    (pool : List ProcessingCard) (hr : r ≠ "") (ha : a ≠ "")
    (hpair : (pool.any fun c => c.reader_name == some r && c.atr == some a) = false) :
    ensure_connection r "" a hostOk pool = (pool, false) ∧
    (should_register_new_card r a pool).1 = CardProcessingResult.Create ∧
    (should_register_new_card r a
      (ensure_connection r "" a hostOk pool).1).1 = CardProcessingResult.Create := by
  have hempty : ("" : String).isEmpty = true := by decide
  have hnoop : ensure_connection r "" a hostOk pool = (pool, false) := by
    simp [ensure_connection, hempty]
  have hcreate : (should_register_new_card r a pool).1 = CardProcessingResult.Create :=
    (registration_decision_cases r a pool).1.2 ⟨hr, ha, hpair⟩
  exact ⟨hnoop, hcreate, by rw [hnoop]; exact hcreate⟩

/-- Witness for C10: a reader with an inserted card whose ICCID has no mapped
card number never enters the empty registry, and the decision stays `Create`. -/
theorem ensure_connection_empty_client_witness :
    ensure_connection "ACS ACR122" "" "3b6b00000031c06401" true [] = ([], false) ∧
    (should_register_new_card "ACS ACR122" "3b6b00000031c06401" []).1 =
      CardProcessingResult.Create ∧
    (should_register_new_card "ACS ACR122" "3b6b00000031c06401"
      (ensure_connection "ACS ACR122" "" "3b6b00000031c06401" true []).1).1 =
      CardProcessingResult.Create :=
  ensure_connection_empty_client "ACS ACR122" "3b6b00000031c06401" true []
    (by decide) (by decide) (by decide)

/-! ## Per-card bridge task (src/src-tauri/src/mqtt.rs, body of the task
spawned by `ensure_connection`).

The task body is a loop over `eventloop.poll()` results. One loop iteration is
modelled as a step function over the task's local state (`is_online`,
`was_online`, `auth_process`), taking the poll result as input and returning
the new state, the observable actions in order (events emitted, messages
published, card operations, sleeps), and whether the task returned. The card's
response to a forwarded APDU is an input (`card`), as is the ATR hex
(`atr_clone`). -/

/-- Fuel-driven replacement of every occurrence of `pat` in `s`, left to right
and non-overlapping (Rust `str::replace`). The fuel is the string length,
which bounds the number of steps for the non-empty patterns used here. -/
def replaceAllAux : Nat → List Char → List Char → List Char → List Char
  | 0, s, _, _ => s
  | fuel + 1, s, pat, rep =>
    match s with
    | [] => []
    | c :: rest =>
      if pat.isPrefixOf s then rep ++ replaceAllAux fuel (s.drop pat.length) pat rep
      else c :: replaceAllAux fuel rest pat rep

/-- Model of `topic.replace("request", "response")`. -/
def replaceAll (s pat rep : String) : String :=
  ⟨replaceAllAux s.data.length s.data pat.data rep.data⟩

/-- Lowercase hex digit for a value below 16. -/
def hexDigitLower (n : Nat) : Char :=
  if n < 10 then Char.ofNat (48 + n) else Char.ofNat (97 + n - 10)

/-- JSON string escaping of one character as performed by `serde_json` when
serializing: quote and backslash are escaped, the named control escapes are
used for backspace, tab, line feed, form feed and carriage return, any other
control character becomes a lowercase `\u00xx` escape, and everything else is
copied verbatim. -/
def escChar (c : Char) : List Char :=
  if c = '"' then ['\\', '"']
  else if c = '\\' then ['\\', '\\']
  else if c = Char.ofNat 8 then ['\\', 'b']
  else if c = Char.ofNat 9 then ['\\', 't']
  else if c = Char.ofNat 10 then ['\\', 'n']
  else if c = Char.ofNat 12 then ['\\', 'f']
  else if c = Char.ofNat 13 then ['\\', 'r']
  else if c.toNat < 32 then
    ['\\', 'u', '0', '0', hexDigitLower (c.toNat / 16), hexDigitLower (c.toNat % 16)]
  else [c]

/-- The characters of `"payload":"` — the key part of the serialized reply. -/
def payloadKeyChars : List Char :=
  ['"', 'p', 'a', 'y', 'l', 'o', 'a', 'd', '"', ':', '"']

/-- `process_rapdu_mqtt_hex`: serialize the JSON object with the single field
`payload` holding the given string (`serde_json::json!` + `to_string`). -/
def process_rapdu_mqtt_hex (rapdu_mqtt_hex : String) : String :=
  ⟨(Char.ofNat 123 :: payloadKeyChars) ++
    (rapdu_mqtt_hex.data.map escChar).flatten ++ ['"', Char.ofNat 125]⟩

/-- A published body is the serialization of a JSON object with exactly one
field `payload` holding some string. -/
def isSingleFieldPayload (b : String) : Prop :=
  ∃ x, b = process_rapdu_mqtt_hex x

/-- The fields of an inbound JSON frame as the task reads them:
`json_payload.get("finish").and_then(as_bool)` and
`json_payload.get("payload").and_then(as_str)`. A missing field, or a field of
the wrong type, is `none`. -/
structure Frame where
  finish : Option Bool
  payload : Option String
deriving DecidableEq

/-- A successfully polled MQTT notification. For a publish, `topic` is `none`
when the raw topic bytes are not valid UTF-8, and `frame` is `none` when the
payload is not valid JSON. -/
inductive Notification where
  | publish (topic : Option String) (frame : Option Frame)
  | connAck
  | pingResp
  | otherEvent
deriving DecidableEq

/-- Kind of a connection-layer error, as classified for logging in the task's
error branch. All kinds are handled identically apart from the log text. -/
inductive ConnErrKind where
  | ioConnAborted
  | ioConnReset
  | ioTimedOut
  | ioOther
  | serverDisconnect
  | awaitPingResp
  | mqttStateIo
  | otherErr
deriving DecidableEq

/-- Result of one `eventloop.poll()` call. -/
inductive PollRes where
  | ok (n : Notification)
  | err (k : ConnErrKind)
deriving DecidableEq

/-- The task's local state: the three mutable flags of the bridge loop. -/
structure BState where
  is_online : Bool
  was_online : Bool
  auth_process : Bool
deriving DecidableEq

/-- One observable action of a loop iteration, in program order:
a `global-cards-sync` event (status text, `online?`, `authenticating?`), an
MQTT publish, a card reconnect, an APDU exchange with the card, or a backoff
sleep. -/
inductive Out where
  | emit (status : String) (online : Option Bool) (authenticating : Option Bool)
  | publishOut (topic : String) (body : String)
  | reconnectCard
  | apduExchange (cmd : String) (resp : String)
  | sleepSecs (n : Nat)
deriving DecidableEq

/-- Result of one loop iteration: new state, actions in order, and whether the
task body executed `return`. -/
structure StepResult where
  state : BState
  outs : List Out
  terminated : Bool
deriving DecidableEq

/-- The flag update at the top of every `Ok(notification)` branch: going online,
and emitting the "card present / online" event on the offline-to-online edge. -/
def onlineUpdate (s : BState) : BState × List Out :=
  if s.is_online then (s, [])
  else if s.was_online then ({ s with is_online := true }, [])
  else ({ s with is_online := true, was_online := true },
        [Out.emit "PRESENT" (some true) none])

/-- Handling of an incoming publish notification — the
`Event::Incoming(Incoming::Publish(..))` arm: invalid UTF-8 in the topic makes
the task return; a JSON parse failure or a missing boolean `finish` is logged
and nothing else happens; `finish = true` emits, reconnects the card, clears
the authenticating flag and replies with an empty wrapped payload;
`finish = false` with a missing string `payload` publishes the (never
assigned, still empty) reply; an empty payload reconnects first when an
authentication was in progress and replies with the ATR; a non-empty payload
is forwarded to the card and its response is wrapped and published. -/
def handlePublish (atr : String) (card : String → String) (s : BState)
    (topic : Option String) (frame : Option Frame) : StepResult :=
  match topic with
  | none => ⟨s, [], true⟩
  | some t =>
    let topic_ack := replaceAll t "request" "response"
    match frame with
    | none => ⟨s, [], false⟩
    | some f =>
      match f.finish with
      | none => ⟨s, [], false⟩
      | some true =>
        ⟨{ s with auth_process := false },
         [Out.emit "PRESENT" (some true) (some false), Out.reconnectCard,
          Out.publishOut topic_ack (process_rapdu_mqtt_hex "")], false⟩
      | some false =>
        match f.payload with
        | none => ⟨s, [Out.publishOut topic_ack ""], false⟩
        | some p =>
          if p.isEmpty then
            ⟨s, (if s.auth_process then [Out.reconnectCard] else []) ++
                [Out.emit "PRESENT" (some true) (some false),
                 Out.publishOut topic_ack (process_rapdu_mqtt_hex atr)], false⟩
          else
            ⟨{ s with auth_process := true },
             [Out.apduExchange p (card p),
              Out.emit "PRESENT" (some true) (some true),
              Out.publishOut topic_ack (process_rapdu_mqtt_hex (card p))], false⟩

/-- One iteration of the bridge task loop on a poll result: an `Ok`
notification first applies the online-edge update and then dispatches on the
notification; an `Err` emits the offline event, resets both online flags,
logs by error kind, and sleeps the fixed 10-second backoff. -/
def step (atr : String) (card : String → String) (s : BState) (e : PollRes) :
    StepResult :=
  match e with
  | PollRes.ok n =>
    match n with
    | Notification.publish topic frame =>
      let r := handlePublish atr card (onlineUpdate s).1 topic frame
      ⟨r.state, (onlineUpdate s).2 ++ r.outs, r.terminated⟩
    | Notification.connAck => ⟨(onlineUpdate s).1, (onlineUpdate s).2, false⟩
    | Notification.pingResp =>
      ⟨(onlineUpdate s).1,
       (onlineUpdate s).2 ++ [Out.emit "PRESENT" (some true) (some false)], false⟩
    | Notification.otherEvent => ⟨(onlineUpdate s).1, (onlineUpdate s).2, false⟩
  | PollRes.err _ =>
    ⟨{ s with is_online := false, was_online := false },
     [Out.emit "PRESENT" (some false) none, Out.sleepSecs 10], false⟩

theorem onlineUpdate_auth (s : BState) :
    (onlineUpdate s).1.auth_process = s.auth_process := by
  rcases s with ⟨o, w, a⟩
  cases o <;> cases w <;> simp [onlineUpdate]

theorem publishOut_not_mem_online (s : BState) (tp b : String) :
    Out.publishOut tp b ∉ (onlineUpdate s).2 := by
  rcases s with ⟨o, w, a⟩
  cases o <;> cases w <;> simp [onlineUpdate]

theorem handlePublish_not_terminated (atr : String) (card : String → String)
    (s : BState) (t : String) (frame : Option Frame) :
    (handlePublish atr card s (some t) frame).terminated = false := by
  cases frame with
  | none => rfl
  | some f =>
    obtain ⟨fin, pay⟩ := f
    cases fin with
    | none => rfl
    | some bfin =>
      cases bfin with
      | true => rfl
      | false =>
        cases pay with
        | none => rfl
        | some p =>
          by_cases hpe : p.isEmpty = true
          · simp [handlePublish, hpe]
          · simp [handlePublish, hpe]

/-- Claim C3 (amended): one loop iteration of the bridge task executes `return`
exactly when the polled notification is a publish whose topic bytes are not
valid UTF-8; in particular every connection-layer error, of every kind, leaves
the task in its loop, emitting the offline status event, resetting both online
flags and sleeping the fixed 10-second backoff — so apart from the invalid
UTF-8 topic path, the task has no self-terminating condition and ends only by
external abort. -/
theorem bridge_task_termination (atr : String) (card : String → String)
    (s : BState) (e : PollRes) :
    ((step atr card s e).terminated = true ↔
      ∃ f, e = PollRes.ok (Notification.publish none f)) ∧
    (∀ k, e = PollRes.err k →
      (step atr card s e).outs =
        [Out.emit "PRESENT" (some false) none, Out.sleepSecs 10] ∧
      (step atr card s e).terminated = false ∧
      (step atr card s e).state =
        { s with is_online := false, was_online := false }) := by
  constructor
  · cases e with
    | ok n =>
      cases n with
      | publish topic frame =>
        cases topic with
        | none =>
          constructor
          · intro _
            exact ⟨frame, rfl⟩
          · intro _
            rfl
        | some t =>
          constructor
          · intro h
            rw [show (step atr card s (PollRes.ok (Notification.publish (some t) frame))).terminated
                  = (handlePublish atr card (onlineUpdate s).1 (some t) frame).terminated from rfl,
               handlePublish_not_terminated] at h
            cases h
          · rintro ⟨f, hf⟩
            cases hf
      | connAck =>
        constructor
        · intro h
          cases h
        · rintro ⟨f, hf⟩
          cases hf
      | pingResp =>
        constructor
        · intro h
          cases h
        · rintro ⟨f, hf⟩
          cases hf
      | otherEvent =>
        constructor
        · intro h
          cases h
        · rintro ⟨f, hf⟩
          cases hf
    | err k =>
      constructor
      · intro h
        cases h
      · rintro ⟨f, hf⟩
        cases hf
  · intro k hk
    subst hk
    exact ⟨rfl, rfl, rfl⟩

/-- Witness for C3: a timed-out connection keeps the task alive — it emits the
offline event and sleeps 10 seconds — while a publish with an invalid UTF-8
topic terminates it. -/
theorem bridge_task_termination_witness :
    (step "aa" (fun _ => "6F00") ⟨true, true, false⟩
        (PollRes.err ConnErrKind.ioTimedOut)).outs =
      [Out.emit "PRESENT" (some false) none, Out.sleepSecs 10] ∧
    (step "aa" (fun _ => "6F00") ⟨true, true, false⟩
        (PollRes.err ConnErrKind.ioTimedOut)).terminated = false ∧
    (step "aa" (fun _ => "6F00") ⟨true, true, false⟩
        (PollRes.ok (Notification.publish none none))).terminated = true := by
  obtain ⟨h1, h2, _⟩ :=
    (bridge_task_termination "aa" (fun _ => "6F00") ⟨true, true, false⟩
      (PollRes.err ConnErrKind.ioTimedOut)).2 ConnErrKind.ioTimedOut rfl
  exact ⟨h1, h2,
    (bridge_task_termination "aa" (fun _ => "6F00") ⟨true, true, false⟩
      (PollRes.ok (Notification.publish none none))).1.2 ⟨none, rfl⟩⟩

/-- Counterexample for C3 as stated: the task does have a self-terminating
condition — a publish whose topic bytes are not valid UTF-8 makes the task
body return on its own, with no external abort involved. -/
theorem bridge_task_self_terminates :
    (step "aa" (fun _ => "6F00") ⟨true, true, false⟩
      (PollRes.ok (Notification.publish none (some ⟨some false, some ""⟩)))).terminated
      = true := rfl

/-- Claim C2 (amended): an inbound frame that is not valid JSON, or whose JSON
lacks a boolean `finish` field, is logged and dropped — no reply is published
(the online-edge update never publishes) and the authenticating flag is
unchanged; the online and was-online flags are updated exactly as for every
successfully polled notification. A frame with `finish = false` but no string
`payload` field is however not dropped: the task publishes the still-empty
reply string to the response topic. -/
theorem malformed_inbound_dropped (atr : String) (card : String → String)
    (s : BState) (t : String) (f : Frame) (hf : f.finish = none) :
    (step atr card s (PollRes.ok (Notification.publish (some t) none))).outs =
      (onlineUpdate s).2 ∧
    (step atr card s (PollRes.ok (Notification.publish (some t) none))).state =
      (onlineUpdate s).1 ∧
    (step atr card s (PollRes.ok (Notification.publish (some t) (some f)))).outs =
      (onlineUpdate s).2 ∧
    (step atr card s (PollRes.ok (Notification.publish (some t) (some f)))).state =
      (onlineUpdate s).1 ∧
    (onlineUpdate s).1.auth_process = s.auth_process ∧
    (∀ tp b, Out.publishOut tp b ∉ (onlineUpdate s).2) ∧
    (step atr card s (PollRes.ok (Notification.publish (some t)
        (some ⟨some false, none⟩)))).outs =
      (onlineUpdate s).2 ++
        [Out.publishOut (replaceAll t "request" "response") ""] := by
  refine ⟨?_, ?_, ?_, ?_, onlineUpdate_auth s, publishOut_not_mem_online s, ?_⟩
  · simp [step, handlePublish]
  · rfl
  · simp [step, handlePublish, hf]
  · simp [step, handlePublish, hf]
  · rfl

/-- Witness for C2: a frame whose `finish` field is missing, arriving on an
online bridge, produces no output at all and leaves the state unchanged. -/
theorem malformed_inbound_dropped_witness :
    (step "aa" (fun _ => "6F00") ⟨true, true, false⟩
      (PollRes.ok (Notification.publish (some "card/request/1")
        (some ⟨none, some "00"⟩)))).outs =
      (onlineUpdate ⟨true, true, false⟩).2 :=
  (malformed_inbound_dropped "aa" (fun _ => "6F00") ⟨true, true, false⟩
    "card/request/1" ⟨none, some "00"⟩ rfl).2.2.1

/-- Counterexample for C2 as stated: an offline bridge receiving a malformed
frame (`finish = false` present but the required `payload` field missing) both
publishes a reply (the empty string, to the response topic) and changes the
online and was-online flags — the claim predicted no reply and no state
change. -/
theorem malformed_frame_replies_and_changes_state :
    step "aa" (fun _ => "6F00") ⟨false, false, false⟩
        (PollRes.ok (Notification.publish (some "card/request/1")
          (some ⟨some false, none⟩))) =
      ⟨⟨true, true, false⟩,
       [Out.emit "PRESENT" (some true) none,
        Out.publishOut "card/response/1" ""], false⟩ := rfl

/-- Claim C6: an inbound frame with `finish = false` and an empty `payload`
makes the task reply on the response topic with the card's ATR hex wrapped as
the single-field payload object, emit the status event with `online = true`
and `authenticating = false`, and — when an authentication was in progress —
first reconnect the card session, before the reply, leaving the authenticating
flag itself unchanged. -/
theorem bridge_empty_payload_reply (atr t : String) (card : String → String)
    (s : BState) :
    step atr card s (PollRes.ok (Notification.publish (some t)
        (some ⟨some false, some ""⟩))) =
      ⟨(onlineUpdate s).1,
       (onlineUpdate s).2 ++
         ((if s.auth_process then [Out.reconnectCard] else []) ++
          [Out.emit "PRESENT" (some true) (some false),
           Out.publishOut (replaceAll t "request" "response")
             (process_rapdu_mqtt_hex atr)]),
       false⟩ := by
  have hpe : ("" : String).isEmpty = true := by decide
  simp [step, handlePublish, hpe, onlineUpdate_auth]

/-- Witness for C6: on an online bridge with an authentication in progress, the
empty-payload frame reconnects the card first, then emits online and not
authenticating, then publishes the wrapped ATR to the response topic. -/
theorem bridge_empty_payload_reply_witness :
    step "3b6b" (fun _ => "6F00") ⟨true, true, true⟩
        (PollRes.ok (Notification.publish (some "card/request/1")
          (some ⟨some false, some ""⟩))) =
      ⟨⟨true, true, true⟩,
       [Out.reconnectCard, Out.emit "PRESENT" (some true) (some false),
        Out.publishOut "card/response/1" (process_rapdu_mqtt_hex "3b6b")], false⟩ :=
  (bridge_empty_payload_reply "3b6b" "card/request/1" (fun _ => "6F00")
    ⟨true, true, true⟩).trans rfl

theorem process_rapdu_ne_empty (x : String) : process_rapdu_mqtt_hex x ≠ "" := by
  intro h
  have h2 := congrArg String.data h
  unfold process_rapdu_mqtt_hex at h2
  simp at h2

/-- Claim C8 (amended): every reply the task publishes for an inbound frame
goes to the topic obtained by replacing `request` with `response` in the
inbound topic, and its body is the serialization of a JSON object with exactly
one field `payload` — except when the frame has `finish = false` and no string
`payload` field, in which case the body is the empty string. -/
theorem reply_topic_and_shape (atr t : String) (card : String → String)
    (s : BState) (frame : Option Frame) (tp b : String)
    (hmem : Out.publishOut tp b ∈
      (step atr card s (PollRes.ok (Notification.publish (some t) frame))).outs) :
    tp = replaceAll t "request" "response" ∧
    (isSingleFieldPayload b ∨ (b = "" ∧ frame = some ⟨some false, none⟩)) := by
  have hno := publishOut_not_mem_online s tp b
  cases frame with
  | none =>
    simp [step, handlePublish] at hmem
    exact absurd hmem hno
  | some f =>
    obtain ⟨fin, pay⟩ := f
    cases fin with
    | none =>
      simp [step, handlePublish] at hmem
      exact absurd hmem hno
    | some bfin =>
      cases bfin with
      | true =>
        simp [step, handlePublish] at hmem
        rcases hmem with h | h
        · exact absurd h hno
        · obtain ⟨h1, h2⟩ := h
          exact ⟨h1, Or.inl ⟨"", h2⟩⟩
      | false =>
        cases pay with
        | none =>
          simp [step, handlePublish] at hmem
          rcases hmem with h | h
          · exact absurd h hno
          · obtain ⟨h1, h2⟩ := h
            exact ⟨h1, Or.inr ⟨h2, rfl⟩⟩
        | some p =>
          by_cases hpe : p.isEmpty = true
          · cases hauth : (onlineUpdate s).1.auth_process with
            | false =>
              simp [step, handlePublish, hpe, hauth] at hmem
              rcases hmem with h | h
              · exact absurd h hno
              · obtain ⟨h1, h2⟩ := h
                exact ⟨h1, Or.inl ⟨atr, h2⟩⟩
            | true =>
              simp [step, handlePublish, hpe, hauth] at hmem
              rcases hmem with h | h
              · exact absurd h hno
              · obtain ⟨h1, h2⟩ := h
                exact ⟨h1, Or.inl ⟨atr, h2⟩⟩
          · simp [step, handlePublish, hpe] at hmem
            rcases hmem with h | h
            · exact absurd h hno
            · obtain ⟨h1, h2⟩ := h
              exact ⟨h1, Or.inl ⟨card p, h2⟩⟩

/-- Witness for C8: the reply published for a `finish = true` frame goes to the
rewritten topic and is the single-field payload object wrapping the empty
string. -/
theorem reply_topic_and_shape_witness :
    "card/response/1" = replaceAll "card/request/1" "request" "response" ∧
    (isSingleFieldPayload (process_rapdu_mqtt_hex "") ∨
      (process_rapdu_mqtt_hex "" = "" ∧
        (some ⟨some true, none⟩ : Option Frame) = some ⟨some false, none⟩)) :=
  reply_topic_and_shape "aa" "card/request/1" (fun _ => "6F00") ⟨true, true, false⟩
    (some ⟨some true, none⟩) "card/response/1" (process_rapdu_mqtt_hex "")
    (by decide)

/-- Counterexample for C8 as stated: the reply published for a frame with
`finish = false` and no `payload` field is the empty string, which is not a
JSON object with a `payload` field at all. -/
theorem reply_not_single_field_payload :
    (step "aa" (fun _ => "6F00") ⟨true, true, false⟩
        (PollRes.ok (Notification.publish (some "card/request/1")
          (some ⟨some false, none⟩)))).outs =
      [Out.publishOut "card/response/1" ""] ∧
    ¬ isSingleFieldPayload "" := by
  constructor
  · rfl
  · rintro ⟨x, hx⟩
    exact process_rapdu_ne_empty x hx.symm

end TachoClient
